import Mathlib

/-!
Shallow embedding of the Go package `page` (files `main.go`, `page/page.go`)
of the template-partials repository, together with proofs about its
template-discovery, template-building, caching and rendering behaviour.

Modelling conventions:
* The Go template engine (`html/template`) and the filesystem are external
  capabilities.  They are modelled by the records `Engine` and `FS` below:
  `Engine.parse` says whether `template.ParseFiles` succeeds on a given file
  list (and with which error message it fails), `Engine.execTemplate` models
  `Template.ExecuteTemplate` (execution of the definition with a given name)
  and `Engine.execute` models `Template.Execute` (execution of the default
  definition).  A successfully compiled template set is represented by its
  identity: the name given to `template.New`, the file list handed to
  `ParseFiles`, and the function registry bound with `Funcs`.
* Go errors are return values; they are modelled as `Option String` (the
  error message) components of the returned tuples.  The only abnormal
  control flow in the package is the nil-pointer dereference that
  `page.go` line 174 performs when `TemplateMap["about.page.tmpl"]` is
  absent; it is modelled by the `Outcome.panic` constructor.
* The Go map `map[string]*template.Template` is modelled as an association
  list with Go assignment semantics (`insertTM` overwrites the entry for an
  existing key).  The program never stores a nil pointer in the map, so map
  values are plain `Template`s.
* The package-level mutex `mapLock` (page.go line 16) and every read/write
  of the shared cache map are recorded in an event trace (`CacheEv`) carried
  alongside each result, so that claims about which cache operations happen
  under the lock are statable.  `mapLockId` is a fixed constant because the
  Go lock is a single package-level variable shared by all `Render` values.
* Logging (`log.Println`, `fmt.Println`) has no observable effect on the
  results and is not modelled.
-/

namespace Page

/-- Template data (`td any` in Go): an opaque payload forwarded verbatim to
the execution capability; modelled as an abstract token. -/
abbrev TData := String

/-- Function registry (`template.FuncMap` in Go): a map from names to opaque
callables.  Only its identity matters to the package, so it is modelled by
the list of registered names. -/
abbrev FuncMap := List String

/-- A compiled template set, as produced by
`template.New(t).Funcs(ren.Functions).ParseFiles(templateSlice...)`
(page.go line 158): its name, the exact file list parsed into it, and the
bound function registry. -/
structure Template where
  name : String
  files : List String
  funcs : FuncMap
deriving DecidableEq

/-- The template cache `map[string]*template.Template`, as an association
list. -/
abbrev TemplateMap := List (String × Template)

/-- Go map read `m[k]` (with its `ok` flag as `Option`). -/
def lookupTM (m : TemplateMap) (k : String) : Option Template :=
  match m with
  | [] => none
  | (k', v) :: rest => if k' = k then some v else lookupTM rest k

/-- Go map assignment `m[k] = v`: overwrites the entry for `k` when one
exists, otherwise adds one. -/
def insertTM (m : TemplateMap) (k : String) (v : Template) : TemplateMap :=
  match m with
  | [] => [(k, v)]
  | (k', v') :: rest =>
    if k' = k then (k, v) :: rest else (k', v') :: insertTM rest k v

/-- The `Render` struct of page.go (lines 21-28). -/
structure Render where
  TemplateDir : String
  Functions : FuncMap
  UseCache : Bool
  TemplateMap : TemplateMap
  Partials : List String
  Debug : Bool
deriving DecidableEq

/-- Function `page.New` (page.go lines 31-39): a `Render` with the package defaults
(the Go zero value of `TemplateDir` is the empty string). -/
def New : Render :=
  { TemplateDir := ""
    Functions := []
    UseCache := true
    TemplateMap := []
    Partials := []
    Debug := false }

/-- The external template-language capability (`html/template`).  `parse`
returns `none` when `ParseFiles` succeeds on the given file list and
`some msg` when it fails; `execTemplate` models `ExecuteTemplate` (execute
the definition named by the second argument); `execute` models `Execute`
(execute the default definition). -/
structure Engine where
  parse : List String → Option String
  execTemplate : Template → String → TData → Except String String
  execute : Template → TData → Except String String

/-- Result of a Go call: either a normal return carrying the returned Go
values, or a runtime panic. -/
inductive Outcome (α : Type) where
  | ok (a : α)
  | panic
deriving DecidableEq

/-- The single package-level lock `var mapLock sync.Mutex` (page.go line
16).  It is one process-wide lock: every trace below uses this same
identifier, whatever `Render` value is involved. -/
def mapLockId : Nat := 0

/-- An observable operation on the shared template cache or on a lock. -/
inductive CacheEv where
  | acquire (lock : Nat)
  | release (lock : Nat)
  | read (key : String)
  | write (key : String)
deriving DecidableEq

/-- Result of `buildTemplate` / `buildTemplateFromDisk` / `GetTemplate`:
the returned `(*template.Template, error)` pair (or a panic), the `Render`
state after the call (only `TemplateMap` is ever mutated), and the trace of
cache/lock events the call performed. -/
structure BuildResult where
  outcome : Outcome (Option Template × Option String)
  ren : Render
  trace : List CacheEv
deriving DecidableEq

/-- Go `path.Join` for the two-component uses in this package: empty
components are dropped and the rest are joined with a slash (cleaning of
dot segments is not modelled; no caller here produces them). -/
def pathJoin (dir name : String) : String :=
  if dir = "" then name else if name = "" then dir else dir ++ "/" ++ name

/-- The file list `templateSlice` assembled by `buildTemplateFromDisk`
(page.go lines 146-155): all discovered partials followed by
`path.Join(ren.TemplateDir, t)`. -/
def templateSlice (ren : Render) (t : String) : List String :=
  ren.Partials ++ [pathJoin ren.TemplateDir t]

/-- The template set `tmpl` built at page.go line 158:
`template.New(t).Funcs(ren.Functions).ParseFiles(templateSlice...)` names
the set `t`, binds `ren.Functions`, and parses exactly `templateSlice`. -/
def builtTemplate (ren : Render) (t : String) : Template :=
  ⟨t, templateSlice ren t, ren.Functions⟩

/-- The cache/lock events of a successful disk build (page.go lines
168-173): lock, write `TemplateMap[t]`, unlock, then the unlocked read of
`TemplateMap["about.page.tmpl"]`. -/
def diskTrace (t : String) : List CacheEv :=
  [.acquire mapLockId, .write t, .release mapLockId, .read "about.page.tmpl"]

/-- Method `Render.buildTemplateFromDisk` (page.go lines 138-194).  Parses the
assembled file list; on error returns `(nil, err)` with the state
untouched; on success stores the new set in `TemplateMap[t]` under
`mapLock`, then (lines 172-174) reads `TemplateMap["about.page.tmpl"]`
without the lock and calls `DefinedTemplates` on it — a nil-pointer panic
when that entry is absent. -/
def buildTemplateFromDisk (eng : Engine) (ren : Render) (t : String) :
    BuildResult :=
  match eng.parse (templateSlice ren t) with
  | some msg => ⟨.ok (none, some msg), ren, []⟩
  | none =>
    match lookupTM (insertTM ren.TemplateMap t (builtTemplate ren t))
        "about.page.tmpl" with
    | some _ =>
      ⟨.ok (some (builtTemplate ren t), none),
       { ren with TemplateMap := insertTM ren.TemplateMap t (builtTemplate ren t) },
       diskTrace t⟩
    | none =>
      ⟨.panic,
       { ren with TemplateMap := insertTM ren.TemplateMap t (builtTemplate ren t) },
       diskTrace t⟩

/-- The cache events of the resolution step of `buildTemplate` (page.go
lines 111-118): the read of `TemplateMap[t]`, performed (without the lock)
exactly when `UseCache` is set. -/
def readTrace (ren : Render) (t : String) : List CacheEv :=
  if ren.UseCache then [.read t] else []

/-- Method `Render.buildTemplate` (page.go lines 105-133).  When `UseCache` is
set it reads `TemplateMap[t]` (without the lock); on a hit that entry is
returned unchanged; otherwise the template is built from disk and the
disk build's error, if any, is propagated as `(nil, err)`. -/
def buildTemplate (eng : Engine) (ren : Render) (t : String) : BuildResult :=
  match (if ren.UseCache then lookupTM ren.TemplateMap t else none) with
  | some tmpl => ⟨.ok (some tmpl, none), ren, readTrace ren t⟩
  | none =>
    match buildTemplateFromDisk eng ren t with
    | ⟨.panic, ren', tr⟩ => ⟨.panic, ren', readTrace ren t ++ tr⟩
    | ⟨.ok (_, some e), ren', tr⟩ => ⟨.ok (none, some e), ren', readTrace ren t ++ tr⟩
    | ⟨.ok (tm, none), ren', tr⟩ => ⟨.ok (tm, none), ren', readTrace ren t ++ tr⟩

/-- What `Show` writes to the `http.ResponseWriter` sink: the rendered body
on success, or an `http.Error` response (message and HTTP status code) on
execution failure. -/
inductive SinkEvent where
  | body (s : String)
  | httpError (msg : String) (status : Nat)
deriving DecidableEq

/-- Go `http.StatusInternalServerError`. -/
def statusInternalServerError : Nat := 500

/-- Result of `Show`: the returned error value (or a panic), the `Render`
state after the call, and what was written to the response sink.  Partial
output written by a failing `ExecuteTemplate` before it errors is not
modelled; execution is treated as atomic. -/
structure ShowResult where
  outcome : Outcome (Option String)
  ren : Render
  sink : List SinkEvent
deriving DecidableEq

/-- Method `Render.Show` (page.go lines 48-63): resolve via `buildTemplate`; on a
build error return it (nothing written to the sink); otherwise
`tmpl.ExecuteTemplate(w, t, td)` — executing the definition named `t` into
the sink; on execution failure write `http.Error(w, msg, 500)` and return
the error; on success return nil.  Executing a nil template (only possible
if `buildTemplate` returned `(nil, nil)`) would be a nil dereference. -/
def Show (eng : Engine) (ren : Render) (t : String) (td : TData) : ShowResult :=
  match buildTemplate eng ren t with
  | ⟨.panic, ren', _⟩ => ⟨.panic, ren', []⟩
  | ⟨.ok (_, some e), ren', _⟩ => ⟨.ok (some e), ren', []⟩
  | ⟨.ok (none, none), ren', _⟩ => ⟨.panic, ren', []⟩
  | ⟨.ok (some tmpl, none), ren', _⟩ =>
    match eng.execTemplate tmpl t td with
    | .ok out => ⟨.ok none, ren', [.body out]⟩
    | .error msg =>
      ⟨.ok (some msg), ren', [.httpError msg statusInternalServerError]⟩

/-- Result of `Render.String`: the returned `(string, error)` pair (or a
panic) and the `Render` state after the call. -/
structure StringResult where
  outcome : Outcome (String × Option String)
  ren : Render
deriving DecidableEq

/-- Method `Render.String` (page.go lines 66-83), named `stringRender` here
because `String` is taken in Lean: resolve via `buildTemplate`; on a build
error return `("", err)`; otherwise `tmpl.Execute(&tpl, td)` — executing
the set's default definition into a buffer, not the definition named `t`;
on execution failure return `("", err)`, on success return the buffer's
text and nil. -/
def stringRender (eng : Engine) (ren : Render) (t : String) (td : TData) :
    StringResult :=
  match buildTemplate eng ren t with
  | ⟨.panic, ren', _⟩ => ⟨.panic, ren'⟩
  | ⟨.ok (_, some e), ren', _⟩ => ⟨.ok ("", some e), ren'⟩
  | ⟨.ok (none, none), ren', _⟩ => ⟨.panic, ren'⟩
  | ⟨.ok (some tmpl, none), ren', _⟩ =>
    match eng.execute tmpl td with
    | .ok out => ⟨.ok (out, none), ren'⟩
    | .error msg => ⟨.ok ("", some msg), ren'⟩

/-- Method `Render.GetTemplate` (page.go lines 87-96): resolve via
`buildTemplate`; on error return `(nil, err)`, otherwise the resolved
template and nil. -/
def GetTemplate (eng : Engine) (ren : Render) (t : String) : BuildResult :=
  match buildTemplate eng ren t with
  | ⟨.panic, ren', tr⟩ => ⟨.panic, ren', tr⟩
  | ⟨.ok (_, some e), ren', tr⟩ => ⟨.ok (none, some e), ren', tr⟩
  | ⟨.ok (tm, none), ren', tr⟩ => ⟨.ok (tm, none), ren', tr⟩

/-- A filesystem entry as seen by `filepath.WalkDir`: the walked path `s`
and the entry's base name `d.Name()`. -/
structure FSEntry where
  path : String
  name : String
deriving DecidableEq

/-- The filesystem capability: walking a root either fails (the error is
propagated immediately by the walk function in `find`, which then discards
any partial result) or yields the entries in traversal order. -/
structure FS where
  walk : String → Except String (List FSEntry)

/-- Go `filepath.Ext` over the reversed character list: scan from the end;
the extension starts at the final dot, is empty if a path separator or the
start of the string is reached first. -/
def extRev (acc : List Char) : List Char → String
  | [] => ""
  | c :: rest =>
    if c = '/' then ""
    else if c = '.' then String.mk ('.' :: acc)
    else extRev (c :: acc) rest

/-- Go `filepath.Ext(p)`: the suffix of `p` beginning at the final dot of
its final slash-separated element, or `""` when there is no dot there. -/
def filepathExt (p : String) : String :=
  extRev [] p.data.reverse

/-- Substring scan: does `sub` occur as a contiguous run of `l`? -/
def containsAux (sub : List Char) : List Char → Bool
  | [] => sub.isEmpty
  | c :: rest => sub.isPrefixOf (c :: rest) || containsAux sub rest

/-- Go `strings.Contains(s, sub)`: `sub` occurs as a substring of `s`. -/
def strContains (s sub : String) : Bool :=
  containsAux sub.data s.data

/-- The `find` function of page.go (lines 238-253): walk `root` and collect
every entry whose `filepath.Ext(d.Name())` equals `ext`, in traversal
order; on a walk error return `(nil, err)`. -/
def find (fs : FS) (root ext : String) : Except String (List String) :=
  match fs.walk root with
  | .error e => .error e
  | .ok entries =>
    .ok ((entries.filter (fun d => filepathExt d.name = ext)).map (fun d => d.path))

/-- The `addTemplate` function of page.go (lines 224-236): `find` with the
hard-coded extension `".tmpl"`, then keep only the paths containing
`fileType` as a substring. -/
def addTemplate (fs : FS) (path fileType : String) : Except String (List String) :=
  match find fs path ".tmpl" with
  | .error e => .error e
  | .ok files => .ok (files.filter (fun x => strContains x fileType))

/-- The loop body of `LoadLayoutsAndPartials` (page.go lines 210-217):
fold over the markers, accumulating the discovered files; the first
`addTemplate` error aborts the loop and is returned. -/
def loadLoop (fs : FS) (root : String) (acc : List String) :
    List String → Except String (List String)
  | [] => .ok acc
  | t :: rest =>
    match addTemplate fs root t with
    | .error e => .error e
    | .ok files => loadLoop fs root (acc ++ files) rest

/-- Method `Render.LoadLayoutsAndPartials` (page.go lines 207-222): run the loop;
on an error return it with the `Render` untouched (the local `templates`
slice is discarded); on success assign the accumulated list to
`ren.Partials`. -/
def LoadLayoutsAndPartials (fs : FS) (ren : Render) (fileTypes : List String) :
    Except String Unit × Render :=
  match loadLoop fs ren.TemplateDir [] fileTypes with
  | .error e => (.error e, ren)
  | .ok templates => (.ok (), { ren with Partials := templates })

/-- Scan of a cache-event trace: `opsLocked h tr` holds when every cache
read and every cache write in `tr` happens while a lock is held (`h` says
whether one is held at the start). -/
def opsLocked (h : Bool) : List CacheEv → Bool
  | [] => true
  | .acquire _ :: r => opsLocked true r
  | .release _ :: r => opsLocked false r
  | .write _ :: r => h && opsLocked h r
  | .read _ :: r => h && opsLocked h r

/-- Scan of a cache-event trace: every cache write (reads exempt) happens
while a lock is held. -/
def writesLocked (h : Bool) : List CacheEv → Bool
  | [] => true
  | .acquire _ :: r => writesLocked true r
  | .release _ :: r => writesLocked false r
  | .write _ :: r => h && writesLocked h r
  | .read _ :: r => writesLocked h r

/-- Every lock acquired or released in the trace is the single
process-wide `mapLock`. -/
def locksAreGlobal (tr : List CacheEv) : Bool :=
  tr.all fun e =>
    match e with
    | .acquire l => l == mapLockId
    | .release l => l == mapLockId
    | _ => true

/-! ### Concrete fixtures used by witnesses and counterexamples -/

/-- An engine on which every parse and every execution succeeds; execution
results record which definition of which set was executed. -/
def engAllOk : Engine :=
  ⟨fun _ => none,
   fun tmpl n _ => .ok ("exec " ++ n ++ " of " ++ tmpl.name),
   fun tmpl _ => .ok ("exec default of " ++ tmpl.name)⟩

/-- An engine on which every parse fails. -/
def engParseFail : Engine :=
  ⟨fun _ => some "parse failure", fun _ _ _ => .ok "", fun _ _ => .ok ""⟩

/-- An engine on which parses succeed but every execution fails. -/
def engExecFail : Engine :=
  ⟨fun _ => none, fun _ _ _ => .error "exec failure", fun _ _ => .error "exec failure"⟩

/-- The `Render` of `main.go` right after construction: template directory
`templates`, caching on, empty cache. -/
def renBase : Render := { New with TemplateDir := "templates" }

/-- A compiled template set for `home.page.tmpl` as `buildTemplateFromDisk`
would produce it from `renBase`. -/
def tmplHome : Template :=
  ⟨"home.page.tmpl", ["templates/home.page.tmpl"], []⟩

/-- Render `renBase` with `home.page.tmpl` already cached. -/
def renHome : Render :=
  { renBase with TemplateMap := [("home.page.tmpl", tmplHome)] }

/-- A filesystem with one template directory holding a layout, a partial
and a page file. -/
def fsW : FS :=
  ⟨fun root =>
    if root = "templates" then
      .ok [⟨"templates/base.layout.tmpl", "base.layout.tmpl"⟩,
           ⟨"templates/css.partial.tmpl", "css.partial.tmpl"⟩,
           ⟨"templates/home.page.tmpl", "home.page.tmpl"⟩]
    else .error "walk failure"⟩

/-! ### Helper lemmas -/

/-- Go map assignment then read of the same key yields the new value. -/
theorem lookupTM_insertTM_self (m : TemplateMap) (k : String) (v : Template) :
    lookupTM (insertTM m k v) k = some v := by
  induction m with
  | nil => simp [insertTM, lookupTM]
  | cons hd tl ih =>
    obtain ⟨k', v'⟩ := hd
    by_cases h : k' = k
    · simp [insertTM, lookupTM, h]
    · simp [insertTM, lookupTM, h, ih]

/-- Go map assignment leaves every other key unchanged. -/
theorem lookupTM_insertTM_ne (m : TemplateMap) (k k' : String) (v : Template)
    (h : k' ≠ k) : lookupTM (insertTM m k v) k' = lookupTM m k' := by
  induction m with
  | nil => simp [insertTM, lookupTM, Ne.symm h]
  | cons hd tl ih =>
    obtain ⟨k₀, v₀⟩ := hd
    by_cases h0 : k₀ = k
    · subst h0
      simp [insertTM, lookupTM, Ne.symm h]
    · simp [insertTM, lookupTM, h0, ih]

/-- Equation: a disk build whose parse fails returns `(nil, err)` with the
state untouched and touches neither the cache map nor the lock. -/
theorem buildTemplateFromDisk_parseFail (eng : Engine) (ren : Render)
    (t msg : String) (hp : eng.parse (templateSlice ren t) = some msg) :
    buildTemplateFromDisk eng ren t = ⟨.ok (none, some msg), ren, []⟩ := by
  unfold buildTemplateFromDisk
  rw [hp]

/-- Equation: a disk build whose parse succeeds and whose updated map has
an entry for `"about.page.tmpl"` returns the built set and the updated
state. -/
theorem buildTemplateFromDisk_parseOk (eng : Engine) (ren : Render)
    (t : String) (u : Template) (hp : eng.parse (templateSlice ren t) = none)
    (ha : lookupTM (insertTM ren.TemplateMap t (builtTemplate ren t))
        "about.page.tmpl" = some u) :
    buildTemplateFromDisk eng ren t
      = ⟨.ok (some (builtTemplate ren t), none),
         { ren with TemplateMap := insertTM ren.TemplateMap t (builtTemplate ren t) },
         diskTrace t⟩ := by
  unfold buildTemplateFromDisk
  rw [hp, ha]

/-- Equation: a disk build whose parse succeeds but whose updated map has
no entry for `"about.page.tmpl"` panics, with the insertion already
performed. -/
theorem buildTemplateFromDisk_panics (eng : Engine) (ren : Render)
    (t : String) (hp : eng.parse (templateSlice ren t) = none)
    (ha : lookupTM (insertTM ren.TemplateMap t (builtTemplate ren t))
        "about.page.tmpl" = none) :
    buildTemplateFromDisk eng ren t
      = ⟨.panic,
         { ren with TemplateMap := insertTM ren.TemplateMap t (builtTemplate ren t) },
         diskTrace t⟩ := by
  unfold buildTemplateFromDisk
  rw [hp, ha]

/-- The three results a disk build can produce, as full equations. -/
theorem buildTemplateFromDisk_split (eng : Engine) (ren : Render) (t : String) :
    (∃ e, buildTemplateFromDisk eng ren t = ⟨.ok (none, some e), ren, []⟩) ∨
    (buildTemplateFromDisk eng ren t
      = ⟨.ok (some (builtTemplate ren t), none),
         { ren with TemplateMap := insertTM ren.TemplateMap t (builtTemplate ren t) },
         diskTrace t⟩) ∨
    (buildTemplateFromDisk eng ren t
      = ⟨.panic,
         { ren with TemplateMap := insertTM ren.TemplateMap t (builtTemplate ren t) },
         diskTrace t⟩) := by
  cases hp : eng.parse (templateSlice ren t) with
  | some msg => exact .inl ⟨msg, buildTemplateFromDisk_parseFail eng ren t msg hp⟩
  | none =>
    cases ha : lookupTM (insertTM ren.TemplateMap t (builtTemplate ren t))
        "about.page.tmpl" with
    | some u => exact .inr (.inl (buildTemplateFromDisk_parseOk eng ren t u hp ha))
    | none => exact .inr (.inr (buildTemplateFromDisk_panics eng ren t hp ha))

/-- The disk build consults the engine only through `parse`. -/
theorem buildTemplateFromDisk_parse_only (eng₁ eng₂ : Engine) (ren : Render)
    (t : String) (h : eng₁.parse = eng₂.parse) :
    buildTemplateFromDisk eng₁ ren t = buildTemplateFromDisk eng₂ ren t := by
  unfold buildTemplateFromDisk
  rw [h]

/-- Template resolution consults the engine only through `parse`. -/
theorem buildTemplate_parse_only (eng₁ eng₂ : Engine) (ren : Render)
    (t : String) (h : eng₁.parse = eng₂.parse) :
    buildTemplate eng₁ ren t = buildTemplate eng₂ ren t := by
  unfold buildTemplate
  rw [buildTemplateFromDisk_parse_only eng₁ eng₂ ren t h]

/-! ### Claim theorems -/

/-- C1: whenever a build from disk succeeds, the compiled set is inserted
into the cache map under key `t`, overwriting any prior entry for that key
and leaving every other key unchanged; the insertion happens for every
value of the `UseCache` flag; the cache map is consulted for resolution
reads only when `UseCache` is true (`buildTemplate` with the flag off is
exactly the disk build, and with the flag on its first cache event is the
read of key `t`). -/
theorem c1_cache_insert_unconditional (eng : Engine) (ren : Render)
    (t : String) (b : Bool)
    (h : eng.parse (templateSlice ren t) = none) :
    lookupTM (buildTemplateFromDisk eng { ren with UseCache := b } t).ren.TemplateMap t
      = some ⟨t, templateSlice ren t, ren.Functions⟩ ∧
    (∀ k, k ≠ t →
      lookupTM (buildTemplateFromDisk eng { ren with UseCache := b } t).ren.TemplateMap k
        = lookupTM ren.TemplateMap k) ∧
    (b = false →
      buildTemplate eng { ren with UseCache := b } t
        = buildTemplateFromDisk eng { ren with UseCache := b } t) ∧
    (b = true →
      (buildTemplate eng { ren with UseCache := b } t).trace.head?
        = some (CacheEv.read t)) := by
  have h' : eng.parse (templateSlice { ren with UseCache := b } t) = none := h
  have hb' : builtTemplate { ren with UseCache := b } t
      = (⟨t, templateSlice ren t, ren.Functions⟩ : Template) := rfl
  refine ⟨?_, ?_, ?_, ?_⟩
  · cases ha : lookupTM (insertTM ren.TemplateMap t
        (builtTemplate { ren with UseCache := b } t)) "about.page.tmpl" with
    | some u =>
      rw [buildTemplateFromDisk_parseOk eng _ t u h' ha, ← hb']
      exact lookupTM_insertTM_self ren.TemplateMap t _
    | none =>
      rw [buildTemplateFromDisk_panics eng _ t h' ha, ← hb']
      exact lookupTM_insertTM_self ren.TemplateMap t _
  · intro k hk
    cases ha : lookupTM (insertTM ren.TemplateMap t
        (builtTemplate { ren with UseCache := b } t)) "about.page.tmpl" with
    | some u =>
      rw [buildTemplateFromDisk_parseOk eng _ t u h' ha]
      exact lookupTM_insertTM_ne ren.TemplateMap t k _ hk
    | none =>
      rw [buildTemplateFromDisk_panics eng _ t h' ha]
      exact lookupTM_insertTM_ne ren.TemplateMap t k _ hk
  · intro hb
    subst hb
    rcases buildTemplateFromDisk_split eng { ren with UseCache := false } t with
      ⟨e, he⟩ | hok | hpanic
    · simp [buildTemplate, readTrace, he]
    · simp [buildTemplate, readTrace, hok]
    · simp [buildTemplate, readTrace, hpanic]
  · intro hb
    subst hb
    cases hc : lookupTM ren.TemplateMap t with
    | some tmpl => simp [buildTemplate, readTrace, hc]
    | none =>
      rcases buildTemplateFromDisk_split eng { ren with UseCache := true } t with
        ⟨e, he⟩ | hok | hpanic
      · simp [buildTemplate, readTrace, hc, he]
      · simp [buildTemplate, readTrace, hc, hok]
      · simp [buildTemplate, readTrace, hc, hpanic]

/-- Witness for C1: a successful disk build of `home.page.tmpl` on the
`main.go` configuration stores the compiled set under that key. -/
theorem c1_witness :
    lookupTM (buildTemplateFromDisk engAllOk { renBase with UseCache := true }
        "home.page.tmpl").ren.TemplateMap "home.page.tmpl"
      = some ⟨"home.page.tmpl", ["templates/home.page.tmpl"], []⟩ :=
  (c1_cache_insert_unconditional engAllOk renBase "home.page.tmpl" true rfl).1

/-- C2 (amended): for every template name `t` other than
`"about.page.tmpl"`, a disk build of `t` whose parse succeeds, on a
`Render` whose `TemplateMap` has no entry under `"about.page.tmpl"`, does
not return normally: after inserting the entry for `t` it reads
`TemplateMap["about.page.tmpl"]` and dereferences the resulting nil
pointer.  (When `t = "about.page.tmpl"` the insertion itself provides the
entry and the call returns normally — see the counterexample.) -/
theorem c2_about_read_panics (eng : Engine) (ren : Render) (t : String)
    (ht : t ≠ "about.page.tmpl")
    (habs : lookupTM ren.TemplateMap "about.page.tmpl" = none)
    (hp : eng.parse (templateSlice ren t) = none) :
    (buildTemplateFromDisk eng ren t).outcome = Outcome.panic := by
  have ha : lookupTM (insertTM ren.TemplateMap t (builtTemplate ren t))
      "about.page.tmpl" = none := by
    rw [lookupTM_insertTM_ne ren.TemplateMap t "about.page.tmpl" _ (Ne.symm ht)]
    exact habs
  rw [buildTemplateFromDisk_panics eng ren t hp ha]

/-- Witness for C2 (amended): building `home.page.tmpl` from disk on the
fresh `main.go` configuration panics at the `"about.page.tmpl"` read. -/
theorem c2_witness :
    (buildTemplateFromDisk engAllOk renBase "home.page.tmpl").outcome
      = Outcome.panic :=
  c2_about_read_panics engAllOk renBase "home.page.tmpl" (by decide) rfl rfl

/-- Counterexample to C2 as stated: with `t = "about.page.tmpl"` itself, a
successful disk build on a `Render` whose map has no `"about.page.tmpl"`
entry does return normally — the insertion for `t` is exactly the entry
the subsequent read needs. -/
theorem c2_counterexample :
    lookupTM renBase.TemplateMap "about.page.tmpl" = none ∧
    engAllOk.parse (templateSlice renBase "about.page.tmpl") = none ∧
    (buildTemplateFromDisk engAllOk renBase "about.page.tmpl").outcome
      = Outcome.ok (some ⟨"about.page.tmpl", ["templates/about.page.tmpl"], []⟩, none) :=
  ⟨rfl, rfl, by decide⟩

/-- C3: resolution (shared by `Show`, `String` and `GetTemplate` through
`buildTemplate`) returns the cached entry exactly when `UseCache` is true
and an entry for `t` is present — leaving the state unchanged — and
otherwise performs a fresh disk build, even if a cache entry exists while
`UseCache` is false; `GetTemplate` is exactly this resolution. -/
theorem c3_resolution (eng : Engine) (ren : Render) (t : String) :
    (∀ T, ren.UseCache = true → lookupTM ren.TemplateMap t = some T →
      buildTemplate eng ren t = ⟨.ok (some T, none), ren, [.read t]⟩) ∧
    ((ren.UseCache = false ∨ lookupTM ren.TemplateMap t = none) →
      (buildTemplate eng ren t).outcome = (buildTemplateFromDisk eng ren t).outcome ∧
      (buildTemplate eng ren t).ren = (buildTemplateFromDisk eng ren t).ren) ∧
    GetTemplate eng ren t = buildTemplate eng ren t := by
  refine ⟨?_, ?_, ?_⟩
  · intro T hu hl
    simp [buildTemplate, readTrace, hu, hl]
  · intro hmiss
    have hc : (if ren.UseCache then lookupTM ren.TemplateMap t else none) = none := by
      rcases hmiss with h | h
      · simp [h]
      · cases ren.UseCache <;> simp [h]
    rcases buildTemplateFromDisk_split eng ren t with ⟨e, he⟩ | hok | hpanic
    · rw [he]
      simp [buildTemplate, hc, he]
    · rw [hok]
      simp [buildTemplate, hc, hok]
    · rw [hpanic]
      simp [buildTemplate, hc, hpanic]
  · cases hc : (if ren.UseCache then lookupTM ren.TemplateMap t else none) with
    | some tmpl => simp [GetTemplate, buildTemplate, hc]
    | none =>
      rcases buildTemplateFromDisk_split eng ren t with ⟨e, he⟩ | hok | hpanic
      · simp [GetTemplate, buildTemplate, hc, he]
      · simp [GetTemplate, buildTemplate, hc, hok]
      · simp [GetTemplate, buildTemplate, hc, hpanic]

/-- Witness for C3: with the cache enabled and `home.page.tmpl` already
cached, resolution returns the cached set and leaves the state unchanged. -/
theorem c3_witness :
    buildTemplate engAllOk renHome "home.page.tmpl"
      = ⟨.ok (some tmplHome, none), renHome, [.read "home.page.tmpl"]⟩ :=
  (c3_resolution engAllOk renHome "home.page.tmpl").1 tmplHome rfl (by decide)

/-- C4: when the parse of the assembled file list fails, the disk build
returns the error with the `Render` (and in particular its cache map)
exactly as it was, performing no cache operation at all; resolution
propagates the error, likewise leaving the state unchanged. -/
theorem c4_failure_leaves_cache (eng : Engine) (ren : Render) (t msg : String)
    (h : eng.parse (templateSlice ren t) = some msg) :
    buildTemplateFromDisk eng ren t = ⟨.ok (none, some msg), ren, []⟩ ∧
    ((ren.UseCache = false ∨ lookupTM ren.TemplateMap t = none) →
      buildTemplate eng ren t = ⟨.ok (none, some msg), ren, readTrace ren t⟩) := by
  have hd := buildTemplateFromDisk_parseFail eng ren t msg h
  refine ⟨hd, ?_⟩
  intro hmiss
  have hc : (if ren.UseCache then lookupTM ren.TemplateMap t else none) = none := by
    rcases hmiss with h' | h'
    · simp [h']
    · cases ren.UseCache <;> simp [h']
  simp [buildTemplate, hc, hd]

/-- Witness for C4: a failing parse returns the error and the untouched
state. -/
theorem c4_witness :
    buildTemplateFromDisk engParseFail renBase "home.page.tmpl"
      = ⟨.ok (none, some "parse failure"), renBase, []⟩ :=
  (c4_failure_leaves_cache engParseFail renBase "home.page.tmpl" "parse failure" rfl).1

/-- C5: the file list handed to the compile capability is exactly the full
discovered partials list followed by the single path
`join(TemplateDir, t)`, and the set built from it — as stored in the cache
and, when the call returns normally, as returned — is named `t` and bound
to the configured function registry with exactly that file list. -/
theorem c5_full_file_list (eng : Engine) (ren : Render) (t : String)
    (h : eng.parse (ren.Partials ++ [pathJoin ren.TemplateDir t]) = none) :
    templateSlice ren t = ren.Partials ++ [pathJoin ren.TemplateDir t] ∧
    lookupTM (buildTemplateFromDisk eng ren t).ren.TemplateMap t
      = some ⟨t, ren.Partials ++ [pathJoin ren.TemplateDir t], ren.Functions⟩ ∧
    ((buildTemplateFromDisk eng ren t).outcome
        = .ok (some ⟨t, ren.Partials ++ [pathJoin ren.TemplateDir t], ren.Functions⟩, none) ∨
      (buildTemplateFromDisk eng ren t).outcome = .panic) := by
  have hp : eng.parse (templateSlice ren t) = none := h
  refine ⟨rfl, ?_, ?_⟩
  · cases ha : lookupTM (insertTM ren.TemplateMap t (builtTemplate ren t))
        "about.page.tmpl" with
    | some u =>
      rw [buildTemplateFromDisk_parseOk eng ren t u hp ha]
      exact lookupTM_insertTM_self ren.TemplateMap t (builtTemplate ren t)
    | none =>
      rw [buildTemplateFromDisk_panics eng ren t hp ha]
      exact lookupTM_insertTM_self ren.TemplateMap t (builtTemplate ren t)
  · cases ha : lookupTM (insertTM ren.TemplateMap t (builtTemplate ren t))
        "about.page.tmpl" with
    | some u =>
      left
      rw [buildTemplateFromDisk_parseOk eng ren t u hp ha]
      rfl
    | none =>
      right
      rw [buildTemplateFromDisk_panics eng ren t hp ha]

/-- Witness for C5: the set built for `home.page.tmpl` holds exactly the
(empty) partials list plus the joined page path, named after the page. -/
theorem c5_witness :
    lookupTM (buildTemplateFromDisk engAllOk renBase "home.page.tmpl").ren.TemplateMap
        "home.page.tmpl"
      = some ⟨"home.page.tmpl", ["templates/home.page.tmpl"], []⟩ :=
  (c5_full_file_list engAllOk renBase "home.page.tmpl" rfl).2.1

/-- C6: `Show` resolves the template and executes the definition named `t`
into the sink; on success it writes the rendered body and returns nil; on
execution failure it writes an `http.Error` with status 500 to the sink
and also returns the execution error. -/
theorem c6_show_exec (eng : Engine) (ren : Render) (t : String) (td : TData)
    (tmpl : Template)
    (hres : (buildTemplate eng ren t).outcome = .ok (some tmpl, none)) :
    (∀ out, eng.execTemplate tmpl t td = .ok out →
      Show eng ren t td = ⟨.ok none, (buildTemplate eng ren t).ren, [.body out]⟩) ∧
    (∀ msg, eng.execTemplate tmpl t td = .error msg →
      Show eng ren t td
        = ⟨.ok (some msg), (buildTemplate eng ren t).ren,
           [.httpError msg statusInternalServerError]⟩) := by
  cases hbt : buildTemplate eng ren t with
  | mk o ren' tr =>
    rw [hbt] at hres
    have ho : o = .ok (some tmpl, none) := hres
    subst ho
    constructor
    · intro out hexec
      simp [Show, hbt, hexec]
    · intro msg hexec
      simp [Show, hbt, hexec]

/-- Witness for C6: with `home.page.tmpl` cached, `Show` writes the body
rendered from the `home.page.tmpl` definition and returns nil; with a
failing executor it writes the 500 error response and returns the error. -/
theorem c6_witness :
    Show engAllOk renHome "home.page.tmpl" "payload"
      = ⟨.ok none, renHome, [.body "exec home.page.tmpl of home.page.tmpl"]⟩ ∧
    Show engExecFail renHome "home.page.tmpl" "payload"
      = ⟨.ok (some "exec failure"), renHome, [.httpError "exec failure" 500]⟩ :=
  ⟨(c6_show_exec engAllOk renHome "home.page.tmpl" "payload" tmplHome
      (by decide)).1 "exec home.page.tmpl of home.page.tmpl" rfl,
   (c6_show_exec engExecFail renHome "home.page.tmpl" "payload" tmplHome
      (by decide)).2 "exec failure" rfl⟩

/-- C7: `String` (embedded as `stringRender`) executes the resolved set's
default definition — not the definition named `t`, and independently of
the name-scoped executor — returning the buffer text on success and the
empty string together with the error on any resolution or execution
error. -/
theorem c7_string_default_exec (eng : Engine) (ren : Render) (t : String)
    (td : TData) :
    (∀ tmpl out, (buildTemplate eng ren t).outcome = .ok (some tmpl, none) →
      eng.execute tmpl td = .ok out →
      stringRender eng ren t td = ⟨.ok (out, none), (buildTemplate eng ren t).ren⟩) ∧
    (∀ tmpl msg, (buildTemplate eng ren t).outcome = .ok (some tmpl, none) →
      eng.execute tmpl td = .error msg →
      stringRender eng ren t td = ⟨.ok ("", some msg), (buildTemplate eng ren t).ren⟩) ∧
    (∀ e, (buildTemplate eng ren t).outcome = .ok (none, some e) →
      stringRender eng ren t td = ⟨.ok ("", some e), (buildTemplate eng ren t).ren⟩) ∧
    (∀ f, stringRender { eng with execTemplate := f } ren t td
      = stringRender eng ren t td) := by
  refine ⟨?_, ?_, ?_, ?_⟩
  · intro tmpl out hres hexec
    cases hbt : buildTemplate eng ren t with
    | mk o ren' tr =>
      rw [hbt] at hres
      have ho : o = .ok (some tmpl, none) := hres
      subst ho
      simp [stringRender, hbt, hexec]
  · intro tmpl msg hres hexec
    cases hbt : buildTemplate eng ren t with
    | mk o ren' tr =>
      rw [hbt] at hres
      have ho : o = .ok (some tmpl, none) := hres
      subst ho
      simp [stringRender, hbt, hexec]
  · intro e hres
    cases hbt : buildTemplate eng ren t with
    | mk o ren' tr =>
      rw [hbt] at hres
      have ho : o = .ok (none, some e) := hres
      subst ho
      simp [stringRender, hbt]
  · intro f
    have hbt : buildTemplate { eng with execTemplate := f } ren t
        = buildTemplate eng ren t :=
      buildTemplate_parse_only { eng with execTemplate := f } eng ren t rfl
    simp [stringRender, hbt]

/-- Witness for C7: with `home.page.tmpl` cached, `stringRender` returns
the default-definition rendering, and on a failing parse it returns the
empty string with the error. -/
theorem c7_witness :
    stringRender engAllOk renHome "home.page.tmpl" "payload"
      = ⟨.ok ("exec default of home.page.tmpl", none), renHome⟩ ∧
    stringRender engParseFail renBase "home.page.tmpl" "payload"
      = ⟨.ok ("", some "parse failure"), renBase⟩ :=
  ⟨(c7_string_default_exec engAllOk renHome "home.page.tmpl" "payload").1
      tmplHome "exec default of home.page.tmpl" (by decide) rfl,
   (c7_string_default_exec engParseFail renBase "home.page.tmpl" "payload").2.2.1
      "parse failure" (by decide)⟩

/-- When every marker discovery succeeds, the loop returns the accumulator
followed by the per-marker lists concatenated in marker order. -/
theorem loadLoop_forall2 (fs : FS) (root : String) {ts : List String}
    {ls : List (List String)}
    (h : List.Forall₂ (fun t l => addTemplate fs root t = Except.ok l) ts ls) :
    ∀ acc, loadLoop fs root acc ts = .ok (acc ++ ls.flatten) := by
  induction h with
  | nil => intro acc; simp [loadLoop]
  | cons h1 h2 ih =>
    intro acc
    simp only [loadLoop, h1]
    rw [ih]
    simp [List.append_assoc]

/-- The first failing marker's error aborts the loop and is returned. -/
theorem loadLoop_error (fs : FS) (root : String) {ts1 : List String}
    {ls1 : List (List String)}
    (h : List.Forall₂ (fun a l => addTemplate fs root a = Except.ok l) ts1 ls1) :
    ∀ t ts2 e acc, addTemplate fs root t = .error e →
      loadLoop fs root acc (ts1 ++ t :: ts2) = .error e := by
  induction h with
  | nil =>
    intro t ts2 e acc he
    simp [loadLoop, he]
  | cons h1 h2 ih =>
    intro t ts2 e acc he
    simp only [List.cons_append, loadLoop, h1]
    exact ih t ts2 e _ he

/-- C8: if any marker's file search fails, `LoadLayoutsAndPartials` returns
the error and leaves the `Render` — in particular its `Partials` field —
unchanged; on success it replaces `Partials` in its entirety by the
concatenation, in marker order, of the discovered lists, modifying no
other field (the result is a `Partials`-only record update). -/
theorem c8_load_layouts (fs : FS) (ren : Render) (ts : List String) :
    (∀ e, (LoadLayoutsAndPartials fs ren ts).1 = .error e →
      (LoadLayoutsAndPartials fs ren ts).2 = ren) ∧
    (∀ ls, List.Forall₂ (fun t l => addTemplate fs ren.TemplateDir t = Except.ok l) ts ls →
      LoadLayoutsAndPartials fs ren ts = (.ok (), { ren with Partials := ls.flatten })) ∧
    (∀ ts1 ls1 t ts2 e, ts = ts1 ++ t :: ts2 →
      List.Forall₂ (fun a l => addTemplate fs ren.TemplateDir a = Except.ok l) ts1 ls1 →
      addTemplate fs ren.TemplateDir t = .error e →
      LoadLayoutsAndPartials fs ren ts = (.error e, ren)) := by
  refine ⟨?_, ?_, ?_⟩
  · intro e he
    cases hl : loadLoop fs ren.TemplateDir [] ts with
    | error e' => simp [LoadLayoutsAndPartials, hl]
    | ok l => simp [LoadLayoutsAndPartials, hl] at he
  · intro ls h
    have hok := loadLoop_forall2 fs ren.TemplateDir h []
    simp only [List.nil_append] at hok
    simp [LoadLayoutsAndPartials, hok]
  · intro ts1 ls1 t ts2 e hts h1 he
    subst hts
    have herr := loadLoop_error fs ren.TemplateDir h1 t ts2 e [] he
    simp [LoadLayoutsAndPartials, herr]

/-- Witness for C8: discovering `[".layout", ".partial"]` over the sample
filesystem sets `Partials` to the layout path then the partial path, and a
failing walk returns the error with the `Render` untouched. -/
theorem c8_witness :
    LoadLayoutsAndPartials fsW renBase [".layout", ".partial"]
      = (.ok (), { renBase with
          Partials := ["templates/base.layout.tmpl", "templates/css.partial.tmpl"] }) ∧
    LoadLayoutsAndPartials fsW { renBase with TemplateDir := "missing" } [".layout"]
      = (.error "walk failure", { renBase with TemplateDir := "missing" }) :=
  ⟨(c8_load_layouts fsW renBase [".layout", ".partial"]).2.1
      [["templates/base.layout.tmpl"], ["templates/css.partial.tmpl"]]
      (List.Forall₂.cons rfl (List.Forall₂.cons rfl List.Forall₂.nil)),
   (c8_load_layouts fsW { renBase with TemplateDir := "missing" } [".layout"]).2.2
      [] [] ".layout" [] "walk failure" rfl List.Forall₂.nil rfl⟩

/-- C9: discovery only ever considers files whose final extension is
exactly `".tmpl"` — `addTemplate` hard-codes that extension in its call to
`find` — and a path is in the returned list exactly when some walked entry
has that path, the entry's name has final extension `".tmpl"`, and the
path contains the marker as a substring. -/
theorem c9_discovery (fs : FS) (root marker : String) (entries : List FSEntry)
    (hw : fs.walk root = .ok entries) :
    addTemplate fs root marker
      = .ok (((entries.filter (fun d => filepathExt d.name = ".tmpl")).map
          (fun d => d.path)).filter (fun x => strContains x marker)) ∧
    ∀ p, p ∈ ((entries.filter (fun d => filepathExt d.name = ".tmpl")).map
          (fun d => d.path)).filter (fun x => strContains x marker) ↔
        ∃ d, d ∈ entries ∧ d.path = p ∧ filepathExt d.name = ".tmpl" ∧
          strContains p marker = true := by
  refine ⟨by simp [addTemplate, find, hw], ?_⟩
  intro p
  constructor
  · intro hp
    rcases List.mem_filter.mp hp with ⟨hmap, hcon⟩
    rcases List.mem_map.mp hmap with ⟨d, hdf, hdp⟩
    rcases List.mem_filter.mp hdf with ⟨hde, hext⟩
    subst hdp
    exact ⟨d, hde, rfl, by simpa using hext, hcon⟩
  · rintro ⟨d, hde, hdp, hext, hcon⟩
    subst hdp
    exact List.mem_filter.mpr
      ⟨List.mem_map.mpr ⟨d, List.mem_filter.mpr ⟨hde, by simpa using hext⟩, rfl⟩, hcon⟩

/-- Witness for C9: on the sample filesystem, marker `".layout"` discovers
exactly the layout file. -/
theorem c9_witness :
    addTemplate fsW "templates" ".layout" = .ok ["templates/base.layout.tmpl"] :=
  (c9_discovery fsW "templates" ".layout"
    [⟨"templates/base.layout.tmpl", "base.layout.tmpl"⟩,
     ⟨"templates/css.partial.tmpl", "css.partial.tmpl"⟩,
     ⟨"templates/home.page.tmpl", "home.page.tmpl"⟩] rfl).1

/-- A disk build's trace is empty (parse failure) or the lock-write-unlock
sequence followed by the unlocked `"about.page.tmpl"` read. -/
theorem buildTemplateFromDisk_trace_split (eng : Engine) (ren : Render)
    (t : String) :
    (buildTemplateFromDisk eng ren t).trace = [] ∨
    (buildTemplateFromDisk eng ren t).trace = diskTrace t := by
  rcases buildTemplateFromDisk_split eng ren t with ⟨e, he⟩ | hok | hpanic
  · rw [he]; exact .inl rfl
  · rw [hok]; exact .inr rfl
  · rw [hpanic]; exact .inr rfl

/-- A resolution's trace is the guarded resolution read alone (cache hit)
or that read followed by the disk build's trace. -/
theorem buildTemplate_trace_split (eng : Engine) (ren : Render) (t : String) :
    (buildTemplate eng ren t).trace = readTrace ren t ∨
    (buildTemplate eng ren t).trace
      = readTrace ren t ++ (buildTemplateFromDisk eng ren t).trace := by
  cases hc : (if ren.UseCache then lookupTM ren.TemplateMap t else none) with
  | some tmpl => exact .inl (by simp [buildTemplate, hc])
  | none =>
    right
    rcases buildTemplateFromDisk_split eng ren t with ⟨e, he⟩ | hok | hpanic
    · simp [buildTemplate, hc, he]
    · simp [buildTemplate, hc, hok]
    · simp [buildTemplate, hc, hpanic]

/-- C10 (amended): every cache write happens under the single process-wide
`mapLock` — the only lock any trace ever acquires — but cache reads (the
resolution read in `buildTemplate` and the `"about.page.tmpl"` read in
`buildTemplateFromDisk`) happen without holding it. -/
theorem c10_writes_locked (eng : Engine) (ren : Render) (t : String) :
    writesLocked false (buildTemplateFromDisk eng ren t).trace = true ∧
    writesLocked false (buildTemplate eng ren t).trace = true ∧
    locksAreGlobal (buildTemplateFromDisk eng ren t).trace = true ∧
    locksAreGlobal (buildTemplate eng ren t).trace = true := by
  refine ⟨?_, ?_, ?_, ?_⟩
  · rcases buildTemplateFromDisk_trace_split eng ren t with h | h <;> rw [h] <;> rfl
  · rcases buildTemplate_trace_split eng ren t with h | h <;> rw [h]
    · cases hu : ren.UseCache <;> simp [readTrace, hu, writesLocked]
    · rcases buildTemplateFromDisk_trace_split eng ren t with h2 | h2 <;> rw [h2] <;>
        cases hu : ren.UseCache <;>
        simp [readTrace, hu, writesLocked, diskTrace]
  · rcases buildTemplateFromDisk_trace_split eng ren t with h | h <;> rw [h] <;> rfl
  · rcases buildTemplate_trace_split eng ren t with h | h <;> rw [h]
    · cases hu : ren.UseCache <;> simp [readTrace, hu, locksAreGlobal]
    · rcases buildTemplateFromDisk_trace_split eng ren t with h2 | h2 <;> rw [h2] <;>
        cases hu : ren.UseCache <;>
        simp [readTrace, hu, locksAreGlobal, diskTrace, mapLockId]

/-- Witness for C10 (amended): a concrete disk build's only write happens
between the acquire and release of the process-wide lock. -/
theorem c10_witness :
    writesLocked false (buildTemplateFromDisk engAllOk renBase "home.page.tmpl").trace
      = true :=
  (c10_writes_locked engAllOk renBase "home.page.tmpl").1

/-- Counterexample to C10 as stated: a cache-enabled resolution hit reads
the cache map without holding any lock, so not every cache operation
executes under the mutual-exclusion lock. -/
theorem c10_counterexample :
    opsLocked false (buildTemplate engAllOk renHome "home.page.tmpl").trace = false := by
  decide

end Page
